import Mathlib

/-!
Shallow embedding of `automation_hub_check_collections_update.py` (v0.2.0).

The script walks the Automation Hub index feeds, filters collections by an
optional YAML configuration, resolves each surviving collection through a
secondary lookup and prints the collections updated within a time window.

The embedding keeps the source names where Lean allows it.  Network effects
are made explicit: the `requests` library is modelled by a `transport`
function supplied as an input, and every function that performs HTTP work
also returns the ordered list of network calls it issued.  The unbounded
`while True` pagination loop is modelled with a fuel parameter.
-/

/-- `class HttpRequestType(Enum)` with members GET, POST, PUT, DELETE. -/
inductive HttpRequestType where
  | GET
  | POST
  | PUT
  | DELETE
deriving DecidableEq, Repr

/-- `http_request_type.name`, the member name of the enum. -/
def HttpRequestType.name : HttpRequestType → String
  | .GET => "GET"
  | .POST => "POST"
  | .PUT => "PUT"
  | .DELETE => "DELETE"

/-- One network call actually handed to the `requests` library:
the method and the full URL (`API_URL + location`). -/
structure ApiCall where
  method : HttpRequestType
  location : String
deriving DecidableEq, Repr

/-- The response object produced by a completed `requests` call.
`body` is the outcome of `response.json()`: `Except.error` models a body
that is not valid JSON (a `JSONDecodeError`, which in the `requests`
exception hierarchy is a `RequestException`). -/
structure HttpResponse (α : Type) where
  ok : Bool
  status_code : Nat
  body : Except String α

/-- Outcome of one call into the `requests` library, one constructor per
except-clause of `query_api` plus the success case. -/
inductive TransportResult (α : Type) where
  | success (resp : HttpResponse α)
  | httpError (m : String)
  | connectionError (m : String)
  | readTimeout (m : String)
  | timeout (m : String)
  | requestException (m : String)

/-- The exceptions `query_api` itself can raise. -/
inductive QueryError where
  | valueError (m : String)
  | typeError (m : String)
  | httpError (m : String)
  | connectionError (m : String)
  | readTimeout (m : String)
  | timeout (m : String)
  | requestException (m : String)
  | runtimeError (m : String)
deriving DecidableEq, Repr

/-- The `if/elif/elif/elif/else` dispatch of `query_api` (lines 100-121):
each branch calls the matching `requests` helper; the trailing `else`
raises `ValueError` for an unsupported HTTP request type. -/
def dispatchRequest {α : Type}
    (transport : HttpRequestType → String → Option String → TransportResult α)
    (t : HttpRequestType) (url : String) (data : Option String) :
    Except QueryError (TransportResult α) :=
  if t = HttpRequestType.GET then
    Except.ok (transport HttpRequestType.GET url data)
  else if t = HttpRequestType.POST then
    Except.ok (transport HttpRequestType.POST url data)
  else if t = HttpRequestType.PUT then
    Except.ok (transport HttpRequestType.PUT url data)
  else if t = HttpRequestType.DELETE then
    Except.ok (transport HttpRequestType.DELETE url data)
  else
    Except.error (QueryError.valueError
      ("Given HTTP request type is not supported! Given is " ++ t.name ++ "."))

/-- Lines 123-150 of `query_api`: the body of the `try` block executes
`return response.json()` (line 123) before `response.raise_for_status()`
(line 124), so a completed call returns its parsed body whatever the
status.  A `response.json()` decode failure is a `RequestException` and is
rewrapped by the final except clause.  The except clauses (lines 125-143)
rewrap each failure; the message texts are the f-strings of the source
(note the missing space in the ReadTimeout message, where two adjacent
string literals are concatenated). -/
def rewrapResult {α : Type} (apiUrl : String) (t : HttpRequestType) :
    TransportResult α → Except QueryError α
  | .success resp =>
    match resp.body with
    | .ok body => .ok body
    | .error m => .error (.requestException
        ("The HTTP " ++ t.name ++ " request failed. Following the complete error: " ++ m))
  | .httpError m => .error (.httpError
      ("The HTTP " ++ t.name ++ " request failed with an HTTPError. Following the complete error: " ++ m))
  | .connectionError m => .error (.connectionError
      ("Unable to connect to the configured API " ++ apiUrl ++ ". Following the complete error: " ++ m))
  | .readTimeout m => .error (.readTimeout
      ("The HTTP " ++ t.name ++ " request timed out.Following the complete error: " ++ m))
  | .timeout m => .error (.timeout
      ("Timeout of the HTTP " ++ t.name ++ " request has been reached. Following the complete error: " ++ m))
  | .requestException m => .error (.requestException
      ("The HTTP " ++ t.name ++ " request failed. Following the complete error: " ++ m))

/-- `query_api(http_request_type, location, data=None)` (lines 49-150).
The first component of the result is the list of network calls issued
(empty when argument validation fails before any call), the second the
returned JSON body or the raised exception.  Passing `none` for
`http_request_type` models the Python `None`/falsy first argument. -/
def queryApi {α : Type} (apiUrl : String)
    (transport : HttpRequestType → String → Option String → TransportResult α)
    (t? : Option HttpRequestType) (location : String) (data : Option String) :
    List ApiCall × Except QueryError α :=
  match t? with
  | none =>
    ([], .error (.valueError
      "Given value for the first argument (\x27http_request_type\x27) is empty (or None)."))
  | some t =>
    if location = "" then
      ([], .error (.valueError
        "Given value for the second argument (\x27location\x27) is empty (or None)."))
    else
      match dispatchRequest transport t (apiUrl ++ location) data with
      | .error e => ([], .error e)
      | .ok tr => ([⟨t, apiUrl ++ location⟩], rewrapResult apiUrl t tr)

theorem dispatchRequest_eq {α : Type}
    (transport : HttpRequestType → String → Option String → TransportResult α)
    (t : HttpRequestType) (url : String) (data : Option String) :
    dispatchRequest transport t url data = Except.ok (transport t url data) := by
  cases t <;> rfl

theorem queryApi_valid {α : Type} (apiUrl : String)
    (transport : HttpRequestType → String → Option String → TransportResult α)
    (t : HttpRequestType) (location : String) (data : Option String)
    (hloc : ¬ location = "") :
    queryApi apiUrl transport (some t) location data
      = ([⟨t, apiUrl ++ location⟩], rewrapResult apiUrl t (transport t (apiUrl ++ location) data)) := by
  simp only [queryApi, if_neg hloc, dispatchRequest_eq]

/-!
Model of the `datetime` values the script uses.  The script parses
timestamps with `datetime.strptime(s, '%Y-%m-%dT%H:%M:%S.%fZ')`, compares
them with `datetime.now() - timedelta(days=args.timedelta)` and renders
them with `strftime`.  A parsed value is a record of calendar fields;
comparison goes through a conversion to microseconds since the epoch,
which agrees with CPython field-by-field datetime comparison on the
validated dates `strptime` can produce.
-/

/-- A naive `datetime.datetime` value. -/
structure PyDateTime where
  year : Nat
  month : Nat
  day : Nat
  hour : Nat
  minute : Nat
  second : Nat
  microsecond : Nat
deriving DecidableEq, Repr

/-- Numeric value of a decimal digit character. -/
def digitVal (c : Char) : Nat := c.toNat - 48

/-- `%Y` of `_strptime`: exactly four decimal digits. -/
def parseYear : List Char → Option (Nat × List Char)
  | a :: b :: c :: d :: rest =>
    if a.isDigit ∧ b.isDigit ∧ c.isDigit ∧ d.isDigit then
      some (digitVal a * 1000 + digitVal b * 100 + digitVal c * 10 + digitVal d, rest)
    else none
  | _ => none

/-- `%m` of `_strptime`: the regex `1[0-2]|0[1-9]|[1-9]`, alternatives
tried in order. -/
def parseMonth : List Char → Option (Nat × List Char)
  | [] => none
  | a :: rest =>
    if a == '1' then
      match rest with
      | b :: rest2 =>
        if b.isDigit ∧ digitVal b ≤ 2 then some (10 + digitVal b, rest2) else some (1, rest)
      | [] => some (1, rest)
    else if a == '0' then
      match rest with
      | b :: rest2 => if b.isDigit ∧ 1 ≤ digitVal b then some (digitVal b, rest2) else none
      | [] => none
    else if a.isDigit ∧ 1 ≤ digitVal a then some (digitVal a, rest)
    else none

/-- `%d` of `_strptime`: the regex `3[01]|[12]\d|0[1-9]|[1-9]`. -/
def parseDay : List Char → Option (Nat × List Char)
  | [] => none
  | a :: rest =>
    if a == '3' then
      match rest with
      | b :: rest2 =>
        if b == '0' ∨ b == '1' then some (30 + digitVal b, rest2) else some (3, rest)
      | [] => some (3, rest)
    else if a == '1' ∨ a == '2' then
      match rest with
      | b :: rest2 =>
        if b.isDigit then some (digitVal a * 10 + digitVal b, rest2) else some (digitVal a, rest)
      | [] => some (digitVal a, rest)
    else if a == '0' then
      match rest with
      | b :: rest2 => if b.isDigit ∧ 1 ≤ digitVal b then some (digitVal b, rest2) else none
      | [] => none
    else if a.isDigit ∧ 1 ≤ digitVal a then some (digitVal a, rest)
    else none

/-- `%H` of `_strptime`: the regex `2[0-3]|[0-1]\d|\d`. -/
def parseHour : List Char → Option (Nat × List Char)
  | [] => none
  | a :: rest =>
    if a == '2' then
      match rest with
      | b :: rest2 =>
        if b.isDigit ∧ digitVal b ≤ 3 then some (20 + digitVal b, rest2) else some (2, rest)
      | [] => some (2, rest)
    else if a == '0' ∨ a == '1' then
      match rest with
      | b :: rest2 =>
        if b.isDigit then some (digitVal a * 10 + digitVal b, rest2) else some (digitVal a, rest)
      | [] => some (digitVal a, rest)
    else if a.isDigit then some (digitVal a, rest)
    else none

/-- `%M` and `%S` of `_strptime`: the regex `[0-5]\d|\d`. -/
def parseMinSec : List Char → Option (Nat × List Char)
  | [] => none
  | a :: rest =>
    if a.isDigit ∧ digitVal a ≤ 5 then
      match rest with
      | b :: rest2 =>
        if b.isDigit then some (digitVal a * 10 + digitVal b, rest2) else some (digitVal a, rest)
      | [] => some (digitVal a, rest)
    else if a.isDigit then some (digitVal a, rest)
    else none

/-- Greedily take up to `n` more digits, returning the accumulated value,
the number of digits taken so far and the rest of the input. -/
def takeFracAux : Nat → Nat → Nat → List Char → Nat × Nat × List Char
  | 0, acc, len, cs => (acc, len, cs)
  | _ + 1, acc, len, [] => (acc, len, [])
  | n + 1, acc, len, c :: cs =>
    if c.isDigit then takeFracAux n (acc * 10 + digitVal c) (len + 1) cs
    else (acc, len, c :: cs)

/-- `%f` of `_strptime`: one to six digits, right-padded with zeros to a
microsecond count (`.1` parses as 100000 microseconds). -/
def parseMicro (cs : List Char) : Option (Nat × List Char) :=
  let r := takeFracAux 6 0 0 cs
  if r.2.1 == 0 then none else some (r.1 * 10 ^ (6 - r.2.1), r.2.2)

/-- Match one literal character of the format string. -/
def expectChar (c : Char) : List Char → Option (List Char)
  | [] => none
  | a :: rest => if a == c then some rest else none

/-- Gregorian leap-year rule, as used by `datetime`. -/
def isLeapYear (y : Nat) : Bool := y % 4 == 0 && (y % 100 != 0 || y % 400 == 0)

/-- Length of a month, as enforced by the `datetime` constructor. -/
def daysInMonth (y m : Nat) : Nat :=
  if m == 2 then (if isLeapYear y then 29 else 28)
  else if m == 4 ∨ m == 6 ∨ m == 9 ∨ m == 11 then 30
  else 31

/-- `datetime.strptime(s, '%Y-%m-%dT%H:%M:%S.%fZ')` on the character list
of `s`: directive by directive, requiring the whole input to be consumed,
then the `datetime` constructor validation (year at least 1, day no larger
than the month allows).  `none` models the raised `ValueError`. -/
def parseTimestampChars (cs : List Char) : Option PyDateTime := do
  let (y, cs) ← parseYear cs
  let cs ← expectChar '-' cs
  let (mo, cs) ← parseMonth cs
  let cs ← expectChar '-' cs
  let (d, cs) ← parseDay cs
  let cs ← expectChar 'T' cs
  let (h, cs) ← parseHour cs
  let cs ← expectChar ':' cs
  let (mi, cs) ← parseMinSec cs
  let cs ← expectChar ':' cs
  let (s, cs) ← parseMinSec cs
  let cs ← expectChar '.' cs
  let (us, cs) ← parseMicro cs
  let cs ← expectChar 'Z' cs
  match cs with
  | [] => if 1 ≤ y ∧ d ≤ daysInMonth y mo then some ⟨y, mo, d, h, mi, s, us⟩ else none
  | _ :: _ => none

/-- `datetime.strptime(s, '%Y-%m-%dT%H:%M:%S.%fZ')`. -/
def parseTimestamp (s : String) : Option PyDateTime := parseTimestampChars s.data

/-- Days since 1970-01-01 of a proleptic Gregorian date (all intermediate
quantities are nonnegative for the years `strptime` can produce). -/
def daysFromCivil (y m d : Int) : Int :=
  let yAdj : Int := if m ≤ 2 then y - 1 else y
  let era : Int := (if 0 ≤ yAdj then yAdj else yAdj - 399) / 400
  let yoe : Int := yAdj - era * 400
  let mAdj : Int := if 2 < m then m - 3 else m + 9
  let doy : Int := (153 * mAdj + 2) / 5 + d - 1
  let doe : Int := yoe * 365 + yoe / 4 - yoe / 100 + doy
  era * 146097 + doe - 719468

/-- Microseconds in one day: the value of `timedelta(days=1)`. -/
def usecPerDay : Int := 86400000000

/-- A datetime as microseconds since the epoch.  Strictly monotone in the
field-by-field order `datetime` uses for comparison, so `a <= b` in Python
is `a.toMicros ≤ b.toMicros` here. -/
def PyDateTime.toMicros (t : PyDateTime) : Int :=
  daysFromCivil t.year t.month t.day * usecPerDay
    + t.hour * 3600000000 + t.minute * 60000000 + t.second * 1000000 + t.microsecond

/-- Decimal rendering of `n`, zero-padded on the left to `width`. -/
def padZero (width n : Nat) : String :=
  let s := toString n
  if s.length < width then String.mk (List.replicate (width - s.length) '0') ++ s else s

/-- One `%` directive of `strftime`; the directives the script can meet
with its fixed parse format, plus `%%`.  An unknown directive is kept
verbatim. -/
def strftimeDirective (t : PyDateTime) (c : Char) : List Char :=
  if c == 'Y' then (padZero 4 t.year).data
  else if c == 'm' then (padZero 2 t.month).data
  else if c == 'd' then (padZero 2 t.day).data
  else if c == 'H' then (padZero 2 t.hour).data
  else if c == 'M' then (padZero 2 t.minute).data
  else if c == 'S' then (padZero 2 t.second).data
  else if c == 'f' then (padZero 6 t.microsecond).data
  else if c == '%' then [c]
  else ['%', c]

/-- `strftime` over the character list of the format string. -/
def strftimeChars (t : PyDateTime) : List Char → List Char
  | [] => []
  | '%' :: c :: rest => strftimeDirective t c ++ strftimeChars t rest
  | c :: rest => c :: strftimeChars t rest

/-- `value.strftime(fmt)`. -/
def PyDateTime.strftime (t : PyDateTime) (fmt : String) : String :=
  String.mk (strftimeChars t fmt.data)

/-!
Data shapes of the JSON documents the scan consumes (spec section 6), and
the scan loop itself (lines 195-252 of the source).
-/

/-- The `highest_version` object embedded in an index item. -/
structure HighestVersion where
  href : String
  version : String
deriving DecidableEq, Repr

/-- One element of a page's `data` array. -/
structure ItemJson where
  name : String
  «namespace» : String
  updated_at : String
  highest_version : HighestVersion
deriving DecidableEq, Repr

/-- One index page: the `data` array and the `links.next` field
(`none` models JSON null or an absent link). -/
structure PageJson where
  data : List ItemJson
  links_next : Option String
deriving DecidableEq, Repr

/-- The body fetched from a `highest_version.href`; the script reads only
its `updated_at` key (spec section 6: that body contains `updated_at`). -/
structure VersionJson where
  updated_at : String
deriving DecidableEq, Repr

/-- A parsed JSON body the API can serve: an index page or a
highest-version document. -/
inductive ApiDoc where
  | page (p : PageJson)
  | version (v : VersionJson)
deriving DecidableEq, Repr

/-- The YAML configuration mapping, when a config file was found.  Each
field is `none` when its key is absent (a key present with a YAML null
value behaves identically in every use the script makes of it). -/
structure Cfg where
  repositories : Option (List String)
  collections : Option (List String)
  namespaces : Option (List String)
  output_date_format : Option String
deriving DecidableEq, Repr

/-- Python truthiness of the `cfg` object: `None` and the empty mapping
are falsy. -/
def cfgIsTruthy : Option Cfg → Bool
  | none => false
  | some c =>
    c.repositories.isSome || c.collections.isSome || c.namespaces.isSome
      || c.output_date_format.isSome

/-- Lines 203-207: `cfg and 'repositories' in cfg and cfg['repositories']
and collection_repo not in cfg['repositories']`. -/
def repoFilterSkips (cfg : Option Cfg) (collection_repo : String) : Bool :=
  match cfg with
  | none => false
  | some c =>
    cfgIsTruthy (some c) &&
      (match c.repositories with
       | none => false
       | some rs => !rs.isEmpty && !rs.contains collection_repo)

/-- Lines 221-226: `cfg and 'collections' in cfg and cfg['collections']
and collection_name not in cfg['collections'] and collection_fqcn not in
cfg['collections']`. -/
def collectionFilterSkips (cfg : Option Cfg) (collection_name collection_fqcn : String) : Bool :=
  match cfg with
  | none => false
  | some c =>
    cfgIsTruthy (some c) &&
      (match c.collections with
       | none => false
       | some ls => !ls.isEmpty && !ls.contains collection_name && !ls.contains collection_fqcn)

/-- Lines 229-233: `cfg and 'namespaces' in cfg and cfg['namespaces'] and
collection_namespace not in cfg['namespaces']`. -/
def namespaceFilterSkips (cfg : Option Cfg) (collection_namespace : String) : Bool :=
  match cfg with
  | none => false
  | some c =>
    cfgIsTruthy (some c) &&
      (match c.namespaces with
       | none => false
       | some ns => !ns.isEmpty && !ns.contains collection_namespace)

/-- Exceptions that can abort the scan loop. -/
inductive ScanError where
  | gateway (e : QueryError)
  | keyError (k : String)
  | valueError (m : String)
  | attributeError (m : String)
  | outOfFuel
deriving DecidableEq, Repr

/-- The fixed inputs of one scan run: the loaded configuration, the
transport behind `requests`, the base URL, a fixed value for
`datetime.now()` (microseconds since the epoch) and `args.timedelta`. -/
structure ScanEnv where
  cfg : Option Cfg
  transport : HttpRequestType → String → Option String → TransportResult ApiDoc
  apiUrl : String
  now : Int
  timedelta : Int

/-- Lines 235-244, the rest of the loop body once the filters let an item
through: interpret the `query_api` outcome for `highest_version.href`
(its `updated_at` key), the time-window check against `datetime.now() -
timedelta(days=args.timedelta)`, and the report line.  Note line 241:
`cfg.get(...)` raises `AttributeError` when no configuration file was
loaded (`cfg` is `None`). -/
def processItemBody (env : ScanEnv) (collection_repo : String) (collection : ItemJson) :
    Except QueryError ApiDoc → Except ScanError (Option String)
  | .error e => .error (.gateway e)
  | .ok (.page _) => .error (.keyError "updated_at")
  | .ok (.version v) =>
    match parseTimestamp v.updated_at with
    | none => .error (.valueError v.updated_at)
    | some last_update =>
      if last_update.toMicros ≤ env.now - env.timedelta * usecPerDay then .ok none
      else
        match parseTimestamp collection.updated_at with
        | none => .error (.valueError collection.updated_at)
        | some item_update =>
          match env.cfg with
          | none => .error (.attributeError
              "\x27NoneType\x27 object has no attribute \x27get\x27")
          | some c =>
            let collection_date :=
              item_update.strftime (c.output_date_format.getD "%Y-%m-%d")
            .ok (some (collection_repo ++ ": " ++ collection.«namespace» ++ "."
              ++ collection.name ++ " has new version "
              ++ collection.highest_version.version ++ " released on " ++ collection_date))

/-- Lines 215-244, the body of the inner `for collection in
result['data']` loop for one item: the collection filter, the namespace
filter, then the `query_api` lookup and the rest of the body.  Returns
the network calls issued and either the optional emitted line or the
exception that aborted the run. -/
def processItem (env : ScanEnv) (collection_repo : String) (collection : ItemJson) :
    List ApiCall × Except ScanError (Option String) :=
  let collection_name := collection.name
  let collection_namespace := collection.«namespace»
  let collection_fqcn := collection_namespace ++ "." ++ collection_name
  if collectionFilterSkips env.cfg collection_name collection_fqcn then ([], .ok none)
  else if namespaceFilterSkips env.cfg collection_namespace then ([], .ok none)
  else
    let q := queryApi env.apiUrl env.transport (some HttpRequestType.GET)
      collection.highest_version.href none
    (q.1, processItemBody env collection_repo collection q.2)

/-- The `for collection in result['data']` loop over one page, in page
order; the first exception aborts, keeping the calls made so far. -/
def processPage (env : ScanEnv) (collection_repo : String) :
    List ItemJson → List ApiCall × Except ScanError (List String)
  | [] => ([], .ok [])
  | collection :: rest =>
    let r := processItem env collection_repo collection
    match r.2 with
    | .error e => (r.1, .error e)
    | .ok line? =>
      let r2 := processPage env collection_repo rest
      (r.1 ++ r2.1,
       match r2.2 with
       | .error e => .error e
       | .ok lines => .ok (line?.toList ++ lines))

/-- Lines 211-251, the `while True` pagination loop of one feed, given
fuel: fetch the page at `href` via `query_api`, process its items, stop
when `result['links']['next']` is null, otherwise continue at the next
location. -/
def feedLoop (env : ScanEnv) (collection_repo : String) :
    Nat → String → List ApiCall × Except ScanError (List String)
  | 0, _ => ([], .error .outOfFuel)
  | fuel + 1, href =>
    let q := queryApi env.apiUrl env.transport (some HttpRequestType.GET) href none
    match q.2 with
    | .error e => (q.1, .error (.gateway e))
    | .ok doc =>
      match doc with
      | .version _ => (q.1, .error (.keyError "data"))
      | .page result =>
        let pr := processPage env collection_repo result.data
        match pr.2 with
        | .error e => (q.1 ++ pr.1, .error e)
        | .ok lines =>
          match result.links_next with
          | none => (q.1 ++ pr.1, .ok lines)
          | some nxt =>
            let nr := feedLoop env collection_repo fuel nxt
            (q.1 ++ pr.1 ++ nr.1,
             match nr.2 with
             | .error e => .error e
             | .ok more => .ok (lines ++ more))

/-- Lines 201-207 for one feed: the repository filter guards the whole
pagination loop; a skipped feed issues no call at all. -/
def runFeed (env : ScanEnv) (fuel : Nat) (collection_repo initial_href : String) :
    List ApiCall × Except ScanError (List String) :=
  if repoFilterSkips env.cfg collection_repo then ([], .ok [])
  else feedLoop env collection_repo fuel initial_href

/-- Lines 195-198: the two hard-coded feeds with their initial locations. -/
def hrefs : List (String × String) :=
  [("validated", "/api/automation-hub/v3/plugin/ansible/content/validated/collections/index/?limit=100"),
   ("certified", "/api/automation-hub/v3/plugin/ansible/content/published/collections/index/?limit=100")]

/-- The `for collection_repo, initial_href in hrefs.items()` loop; an
exception in one feed aborts the whole run. -/
def scanFeeds (env : ScanEnv) (fuel : Nat) :
    List (String × String) → List ApiCall × Except ScanError (List String)
  | [] => ([], .ok [])
  | (collection_repo, initial_href) :: rest =>
    let r := runFeed env fuel collection_repo initial_href
    match r.2 with
    | .error e => (r.1, .error e)
    | .ok lines =>
      let r2 := scanFeeds env fuel rest
      (r.1 ++ r2.1,
       match r2.2 with
       | .error e => .error e
       | .ok more => .ok (lines ++ more))

/-- The whole scan: both feeds in order. -/
def scan (env : ScanEnv) (fuel : Nat) : List ApiCall × Except ScanError (List String) :=
  scanFeeds env fuel hrefs

/-!
Auxiliary notions for stating the claims, and concrete fixtures used by
closed witness theorems.
-/

/-- `needle` is an initial segment of `haystack`. -/
def isPrefixChars : List Char → List Char → Bool
  | [], _ => true
  | _ :: _, [] => false
  | a :: as, b :: bs => a == b && isPrefixChars as bs

/-- `needle` occurs contiguously somewhere in `haystack`. -/
def hasSubstr (needle : List Char) : List Char → Bool
  | [] => isPrefixChars needle []
  | b :: bs => isPrefixChars needle (b :: bs) || hasSubstr needle bs

/-- The default `API_URL` of the script. -/
def baseUrl : String := "https://console.redhat.com"

/-- The initial location of the "validated" feed (line 196). -/
def validatedIndexHref : String :=
  "/api/automation-hub/v3/plugin/ansible/content/validated/collections/index/?limit=100"

/-- The one item of the specification scenario (spec section 8). -/
def itemFoo : ItemJson := ⟨"foo", "redhat", "2024-01-01T00:00:00.000000Z", ⟨"/v", "1.2.0"⟩⟩

/-- A configuration file that was found but sets nothing. -/
def emptyCfg : Cfg := ⟨none, none, none, none⟩

/-- A fixed value of `datetime.now()` for the closed runs: 2024-01-12
midnight, so with `timedelta = 7` the cutoff is 2024-01-05 midnight. -/
def nowFixed : Int := (PyDateTime.mk 2024 1 12 0 0 0 0).toMicros

/-- A backing dataset: the same JSON document for every method at each
known URL, connection failure elsewhere. -/
def tableTransport (table : List (String × ApiDoc)) :
    HttpRequestType → String → Option String → TransportResult ApiDoc :=
  fun _ url _ =>
    match table.lookup url with
    | some doc => TransportResult.success ⟨true, 200, Except.ok doc⟩
    | none => TransportResult.connectionError "no route to host"

/-- One validated-feed page holding only `itemFoo`, with no next page. -/
def pageOne : PageJson := ⟨[itemFoo], none⟩

/-- Dataset of the scenario runs: the validated index serves `pageOne`
and `/v` serves a version document updated 2024-01-10 (inside the
window). -/
def freshTable : List (String × ApiDoc) :=
  [(baseUrl ++ validatedIndexHref, ApiDoc.page pageOne),
   (baseUrl ++ "/v", ApiDoc.version ⟨"2024-01-10T00:00:00.000000Z"⟩)]

/-- Run inputs with no configuration file at all (`cfg` is `None`). -/
def envNoCfg : ScanEnv := ⟨none, tableTransport freshTable, baseUrl, nowFixed, 7⟩

/-- Run inputs with an empty configuration mapping. -/
def envEmptyCfg : ScanEnv := ⟨some emptyCfg, tableTransport freshTable, baseUrl, nowFixed, 7⟩

/-- Run inputs whose configured repositories exclude "validated". -/
def envRepoFilter : ScanEnv :=
  ⟨some ⟨some ["certified"], none, none, none⟩,
   fun _ _ _ => TransportResult.connectionError "unreachable", baseUrl, nowFixed, 7⟩

/-- Run inputs whose configured repositories match neither feed. -/
def envSkipAll : ScanEnv :=
  ⟨some ⟨some ["neither"], none, none, none⟩,
   fun _ _ _ => TransportResult.connectionError "unreachable", baseUrl, nowFixed, 7⟩

/-- Run inputs whose configured namespaces exclude `itemFoo`'s
namespace "redhat" (spec section 8 scenario). -/
def envNsFilter : ScanEnv :=
  ⟨some ⟨none, none, some ["community"], none⟩,
   tableTransport freshTable, baseUrl, nowFixed, 7⟩

/-- Dataset whose `/v` document is updated exactly at the cutoff
2024-01-05 midnight. -/
def envCutoff : ScanEnv :=
  ⟨some emptyCfg,
   tableTransport
     [(baseUrl ++ validatedIndexHref, ApiDoc.page pageOne),
      (baseUrl ++ "/v", ApiDoc.version ⟨"2024-01-05T00:00:00.000000Z"⟩)],
   baseUrl, nowFixed, 7⟩

/-!
Helper lemmas about the call traces.
-/

theorem queryApi_fst {α : Type} (apiUrl : String)
    (transport : HttpRequestType → String → Option String → TransportResult α)
    (t : HttpRequestType) (location : String) (data : Option String) :
    (queryApi apiUrl transport (some t) location data).1 = []
      ∨ (queryApi apiUrl transport (some t) location data).1 = [⟨t, apiUrl ++ location⟩] := by
  by_cases h : location = ""
  · left
    simp [queryApi, h]
  · right
    rw [queryApi_valid apiUrl transport t location data h]

theorem processItem_fst (env : ScanEnv) (collection_repo : String) (collection : ItemJson) :
    (processItem env collection_repo collection).1 = []
      ∨ (processItem env collection_repo collection).1
          = [⟨HttpRequestType.GET, env.apiUrl ++ collection.highest_version.href⟩] := by
  unfold processItem
  by_cases hc : collectionFilterSkips env.cfg collection.name
      (collection.«namespace» ++ "." ++ collection.name)
  · left
    simp [hc]
  · by_cases hn : namespaceFilterSkips env.cfg collection.«namespace»
    · left
      simp [hc, hn]
    · simp only [hc, hn, Bool.false_eq_true, if_false]
      exact queryApi_fst env.apiUrl env.transport HttpRequestType.GET
        collection.highest_version.href none

theorem processPage_calls (env : ScanEnv) (collection_repo : String) (items : List ItemJson) :
    ∀ call ∈ (processPage env collection_repo items).1,
      ∃ it ∈ items, call = ⟨HttpRequestType.GET, env.apiUrl ++ it.highest_version.href⟩ := by
  induction items with
  | nil =>
    intro call hcall
    simp [processPage] at hcall
  | cons collection rest ih =>
    intro call hcall
    have hmem : call ∈ (processItem env collection_repo collection).1
        ∨ call ∈ (processPage env collection_repo rest).1 := by
      rcases h2 : (processItem env collection_repo collection).2 with e | line?
      · simp only [processPage, h2] at hcall
        exact Or.inl hcall
      · simp only [processPage, h2, List.mem_append] at hcall
        exact hcall
    rcases hmem with hmem | hmem
    · rcases processItem_fst env collection_repo collection with h1 | h1
      · rw [h1] at hmem
        simp at hmem
      · rw [h1] at hmem
        simp at hmem
        exact ⟨collection, List.mem_cons_self collection rest, hmem⟩
    · rcases ih call hmem with ⟨it, hit, heq⟩
      exact ⟨it, List.mem_cons_of_mem collection hit, heq⟩

/-!
The claims.
-/

/-- C1: for every invocation of `query_api` with a valid method and a
non-empty location in which the HTTP call itself completes and the body
parses as JSON, the parsed body is returned whatever the response's
`ok`/`status_code` values are (both are quantified here): line 123
returns `response.json()` before `raise_for_status()` and before the
`not response.ok` check, so no HTTPError/RuntimeError can be raised after
a successful parse. -/
theorem queryApi_returns_parsed_body_regardless_of_status {α : Type} (apiUrl : String)
    (transport : HttpRequestType → String → Option String → TransportResult α)
    (t : HttpRequestType) (location : String) (data : Option String)
    (resp : HttpResponse α) (body : α)
    (hloc : ¬ location = "")
    (htr : transport t (apiUrl ++ location) data = TransportResult.success resp)
    (hbody : resp.body = Except.ok body) :
    queryApi apiUrl transport (some t) location data
      = ([⟨t, apiUrl ++ location⟩], Except.ok body) := by
  rw [queryApi_valid apiUrl transport t location data hloc, htr]
  simp only [rewrapResult, hbody]

theorem queryApi_returns_parsed_body_regardless_of_status_witness :
    @queryApi ApiDoc baseUrl
        (fun _ _ _ => TransportResult.success ⟨false, 500, Except.ok (ApiDoc.version ⟨"x"⟩)⟩)
        (some HttpRequestType.GET) "/foo" none
      = ([⟨HttpRequestType.GET, baseUrl ++ "/foo"⟩], Except.ok (ApiDoc.version ⟨"x"⟩)) :=
  queryApi_returns_parsed_body_regardless_of_status baseUrl
    (fun _ _ _ => TransportResult.success ⟨false, 500, Except.ok (ApiDoc.version ⟨"x"⟩)⟩)
    HttpRequestType.GET "/foo" none ⟨false, 500, Except.ok (ApiDoc.version ⟨"x"⟩)⟩
    (ApiDoc.version ⟨"x"⟩) (by decide) rfl rfl

/-- C10: the trailing "HTTP request type is not supported" `ValueError`
of `query_api` is unreachable: every member of `HttpRequestType` is
matched by exactly the corresponding one of the four `if/elif` dispatch
branches, which calls the transport with that member, so the `else`
branch never produces its error. -/
theorem dispatch_fallback_unreachable {α : Type}
    (transport : HttpRequestType → String → Option String → TransportResult α)
    (t : HttpRequestType) (url : String) (data : Option String) :
    dispatchRequest transport t url data = Except.ok (transport t url data) := by
  cases t <;> rfl

/-- C7 counterexample: a `ConnectionError` during a GET of location
"/foo" is re-raised with a message that contains neither the target
location "/foo" nor the method name "GET" — the claim that every failure
message names both the method and the target location is false. -/
theorem queryApi_failure_message_omits_method_and_location :
    (@queryApi Unit baseUrl
        (fun _ _ _ => TransportResult.connectionError "boom")
        (some HttpRequestType.GET) "/foo" none).2
      = Except.error (QueryError.connectionError
          "Unable to connect to the configured API https://console.redhat.com. Following the complete error: boom")
    ∧ hasSubstr "/foo".data
        "Unable to connect to the configured API https://console.redhat.com. Following the complete error: boom".data
        = false
    ∧ hasSubstr "GET".data
        "Unable to connect to the configured API https://console.redhat.com. Following the complete error: boom".data
        = false := by
  refine ⟨rfl, by decide, by decide⟩

/-- C7 (amended): every failure re-raised by `query_api` embeds the
original error text at the end of its message; the HTTPError,
ReadTimeout, Timeout and RequestException messages name the HTTP method;
the ConnectionError message names the configured API base URL instead of
the method; no re-raised message includes the target location (the
location does not occur in any of the message templates, which the
counterexample exhibits concretely). -/
theorem queryApi_failure_messages (apiUrl m location : String) (t : HttpRequestType)
    (data : Option String) (hloc : ¬ location = "") :
    (∃ p q, (@queryApi Unit apiUrl (fun _ _ _ => TransportResult.httpError m)
        (some t) location data).2
      = Except.error (QueryError.httpError (p ++ t.name ++ q ++ m))) ∧
    (∃ p q, (@queryApi Unit apiUrl (fun _ _ _ => TransportResult.readTimeout m)
        (some t) location data).2
      = Except.error (QueryError.readTimeout (p ++ t.name ++ q ++ m))) ∧
    (∃ p q, (@queryApi Unit apiUrl (fun _ _ _ => TransportResult.timeout m)
        (some t) location data).2
      = Except.error (QueryError.timeout (p ++ t.name ++ q ++ m))) ∧
    (∃ p q, (@queryApi Unit apiUrl (fun _ _ _ => TransportResult.requestException m)
        (some t) location data).2
      = Except.error (QueryError.requestException (p ++ t.name ++ q ++ m))) ∧
    (∃ p q, (@queryApi Unit apiUrl (fun _ _ _ => TransportResult.connectionError m)
        (some t) location data).2
      = Except.error (QueryError.connectionError (p ++ apiUrl ++ q ++ m))) := by
  refine ⟨⟨"The HTTP ", " request failed with an HTTPError. Following the complete error: ", ?_⟩,
    ⟨"The HTTP ", " request timed out.Following the complete error: ", ?_⟩,
    ⟨"Timeout of the HTTP ", " request has been reached. Following the complete error: ", ?_⟩,
    ⟨"The HTTP ", " request failed. Following the complete error: ", ?_⟩,
    ⟨"Unable to connect to the configured API ", ". Following the complete error: ", ?_⟩⟩
  all_goals rw [queryApi_valid apiUrl _ t location data hloc]
  all_goals rfl

theorem queryApi_failure_messages_witness :
    (∃ p q, (@queryApi Unit baseUrl (fun _ _ _ => TransportResult.httpError "boom")
        (some HttpRequestType.GET) "/foo" none).2
      = Except.error (QueryError.httpError (p ++ HttpRequestType.GET.name ++ q ++ "boom"))) ∧
    (∃ p q, (@queryApi Unit baseUrl (fun _ _ _ => TransportResult.readTimeout "boom")
        (some HttpRequestType.GET) "/foo" none).2
      = Except.error (QueryError.readTimeout (p ++ HttpRequestType.GET.name ++ q ++ "boom"))) ∧
    (∃ p q, (@queryApi Unit baseUrl (fun _ _ _ => TransportResult.timeout "boom")
        (some HttpRequestType.GET) "/foo" none).2
      = Except.error (QueryError.timeout (p ++ HttpRequestType.GET.name ++ q ++ "boom"))) ∧
    (∃ p q, (@queryApi Unit baseUrl (fun _ _ _ => TransportResult.requestException "boom")
        (some HttpRequestType.GET) "/foo" none).2
      = Except.error (QueryError.requestException (p ++ HttpRequestType.GET.name ++ q ++ "boom"))) ∧
    (∃ p q, (@queryApi Unit baseUrl (fun _ _ _ => TransportResult.connectionError "boom")
        (some HttpRequestType.GET) "/foo" none).2
      = Except.error (QueryError.connectionError (p ++ baseUrl ++ q ++ "boom"))) :=
  queryApi_failure_messages baseUrl "boom" "/foo" HttpRequestType.GET none (by decide)

/-- C3: for every feed whose name is not a member of a non-empty
configured repositories set, the scanner makes zero API calls for that
feed: the per-feed run returns an empty call trace and no lines, so
pagination never starts and no item of the feed is processed. -/
theorem repo_filter_skips_feed_without_calls (env : ScanEnv) (fuel : Nat)
    (collection_repo initial_href : String) (c : Cfg) (rs : List String)
    (hcfg : env.cfg = some c) (hrs : c.repositories = some rs)
    (hne : rs.isEmpty = false) (hmem : rs.contains collection_repo = false) :
    runFeed env fuel collection_repo initial_href = ([], Except.ok []) := by
  have hskip : repoFilterSkips env.cfg collection_repo = true := by
    rw [hcfg]
    unfold repoFilterSkips cfgIsTruthy
    dsimp only
    rw [hrs]
    dsimp only
    rw [hne, hmem]
    rfl
  unfold runFeed
  rw [hskip]
  rfl

theorem repo_filter_skips_feed_without_calls_witness :
    runFeed envRepoFilter 3 "validated" validatedIndexHref = ([], Except.ok []) :=
  repo_filter_skips_feed_without_calls envRepoFilter 3 "validated" validatedIndexHref
    ⟨some ["certified"], none, none, none⟩ ["certified"] rfl rfl rfl (by decide)

/-- C4: the collection and namespace filters run before the VersionInfo
lookup: an item excluded by either filter yields no network call and no
line, and an item excluded by neither yields exactly the one GET of its
`highest_version.href` (the item's version reference being a non-empty
location). -/
theorem filters_precede_version_lookup (env : ScanEnv) (collection_repo : String)
    (collection : ItemJson) :
    (collectionFilterSkips env.cfg collection.name
        (collection.«namespace» ++ "." ++ collection.name) = true ∨
      namespaceFilterSkips env.cfg collection.«namespace» = true →
        processItem env collection_repo collection = ([], Except.ok none)) ∧
    (collectionFilterSkips env.cfg collection.name
        (collection.«namespace» ++ "." ++ collection.name) = false →
      namespaceFilterSkips env.cfg collection.«namespace» = false →
      ¬ collection.highest_version.href = "" →
        (processItem env collection_repo collection).1
          = [⟨HttpRequestType.GET, env.apiUrl ++ collection.highest_version.href⟩]) := by
  constructor
  · rintro (h | h)
    · simp [processItem, h]
    · by_cases hc : collectionFilterSkips env.cfg collection.name
          (collection.«namespace» ++ "." ++ collection.name) <;>
        simp [processItem, h, hc]
  · intro hc hn hh
    simp only [processItem, hc, hn, Bool.false_eq_true, if_false,
      queryApi_valid env.apiUrl env.transport HttpRequestType.GET
        collection.highest_version.href none hh]

theorem filters_precede_version_lookup_witness :
    processItem envNsFilter "validated" itemFoo = ([], Except.ok none) ∧
    (processItem envEmptyCfg "validated" itemFoo).1
      = [⟨HttpRequestType.GET, envEmptyCfg.apiUrl ++ itemFoo.highest_version.href⟩] :=
  ⟨(filters_precede_version_lookup envNsFilter "validated" itemFoo).1 (Or.inr (by decide)),
   (filters_precede_version_lookup envEmptyCfg "validated" itemFoo).2 (by decide) (by decide)
     (by decide)⟩

/-- C5: inclusion by time window is by strict inequality on the parsed
`VersionInfo.updated_at`: when it is less than or equal to
`now - timedelta(days)` — in particular when it equals the cutoff
exactly — the item is skipped with no line, and a line can only be
emitted when it is strictly greater than the cutoff. -/
theorem time_window_strict (env : ScanEnv) (collection_repo : String) (collection : ItemJson)
    (resp : HttpResponse ApiDoc) (v : VersionJson) (last_update : PyDateTime)
    (hc : collectionFilterSkips env.cfg collection.name
        (collection.«namespace» ++ "." ++ collection.name) = false)
    (hn : namespaceFilterSkips env.cfg collection.«namespace» = false)
    (hh : ¬ collection.highest_version.href = "")
    (htr : env.transport HttpRequestType.GET (env.apiUrl ++ collection.highest_version.href) none
        = TransportResult.success resp)
    (hbody : resp.body = Except.ok (ApiDoc.version v))
    (hparse : parseTimestamp v.updated_at = some last_update) :
    (last_update.toMicros ≤ env.now - env.timedelta * usecPerDay →
      processItem env collection_repo collection
        = ([⟨HttpRequestType.GET, env.apiUrl ++ collection.highest_version.href⟩],
           Except.ok none)) ∧
    (∀ line, (processItem env collection_repo collection).2 = Except.ok (some line) →
      env.now - env.timedelta * usecPerDay < last_update.toMicros) := by
  have hpi : processItem env collection_repo collection
      = ([⟨HttpRequestType.GET, env.apiUrl ++ collection.highest_version.href⟩],
         processItemBody env collection_repo collection (Except.ok (ApiDoc.version v))) := by
    simp only [processItem, hc, hn, Bool.false_eq_true, if_false]
    rw [queryApi_valid env.apiUrl env.transport HttpRequestType.GET
      collection.highest_version.href none hh, htr]
    simp only [rewrapResult, hbody]
  constructor
  · intro hle
    rw [hpi]
    simp only [processItemBody, hparse]
    rw [if_pos hle]
  · intro line hline
    by_contra hnlt
    rw [hpi] at hline
    simp only [processItemBody, hparse] at hline
    rw [if_pos (not_lt.mp hnlt)] at hline
    exact Option.noConfusion (Except.ok.inj hline)

theorem time_window_strict_witness :
    parseTimestamp "2024-01-05T00:00:00.000000Z" = some ⟨2024, 1, 5, 0, 0, 0, 0⟩ ∧
    (PyDateTime.mk 2024 1 5 0 0 0 0).toMicros = envCutoff.now - envCutoff.timedelta * usecPerDay ∧
    processItem envCutoff "validated" itemFoo
      = ([⟨HttpRequestType.GET, envCutoff.apiUrl ++ itemFoo.highest_version.href⟩],
         Except.ok none) :=
  ⟨by decide, by decide,
   (time_window_strict envCutoff "validated" itemFoo
     ⟨true, 200, Except.ok (ApiDoc.version ⟨"2024-01-05T00:00:00.000000Z"⟩)⟩
     ⟨"2024-01-05T00:00:00.000000Z"⟩ ⟨2024, 1, 5, 0, 0, 0, 0⟩
     (by decide) (by decide) (by decide) rfl rfl (by decide)).1 (by decide)⟩

/-- C6: for every feed, the pagination loop terminates exactly when the
current page's next-location is null (whatever the page contained — its
processing outcome is carried through unchanged, so the result no longer
depends on the remaining fuel), and otherwise continues with the next
location; in the null case the call trace is the single index fetch
followed only by version lookups of items on that page, so a feed whose
first page has a null next-location issues exactly one index API call. -/
theorem pagination_follows_next_link (env : ScanEnv) (collection_repo href : String)
    (resp : HttpResponse ApiDoc) (result : PageJson)
    (hhref : ¬ href = "")
    (htr : env.transport HttpRequestType.GET (env.apiUrl ++ href) none
        = TransportResult.success resp)
    (hbody : resp.body = Except.ok (ApiDoc.page result)) :
    (result.links_next = none →
      ∀ fuel : Nat,
        feedLoop env collection_repo (fuel + 1) href
          = (⟨HttpRequestType.GET, env.apiUrl ++ href⟩
               :: (processPage env collection_repo result.data).1,
             (processPage env collection_repo result.data).2)) ∧
    (∀ nxt, result.links_next = some nxt →
      ∀ fuel : Nat, ∀ lines,
        (processPage env collection_repo result.data).2 = Except.ok lines →
        feedLoop env collection_repo (fuel + 1) href
          = (⟨HttpRequestType.GET, env.apiUrl ++ href⟩
               :: (processPage env collection_repo result.data).1
               ++ (feedLoop env collection_repo fuel nxt).1,
             match (feedLoop env collection_repo fuel nxt).2 with
             | .error e => .error e
             | .ok more => .ok (lines ++ more))) ∧
    (∀ call ∈ (processPage env collection_repo result.data).1,
      ∃ it ∈ result.data,
        call = ⟨HttpRequestType.GET, env.apiUrl ++ it.highest_version.href⟩) := by
  have hq : queryApi env.apiUrl env.transport (some HttpRequestType.GET) href none
      = ([⟨HttpRequestType.GET, env.apiUrl ++ href⟩], Except.ok (ApiDoc.page result)) := by
    rw [queryApi_valid env.apiUrl env.transport HttpRequestType.GET href none hhref, htr]
    simp only [rewrapResult, hbody]
  refine ⟨?_, ?_, processPage_calls env collection_repo result.data⟩
  · intro hnone fuel
    simp only [feedLoop, hq]
    rcases hpr : (processPage env collection_repo result.data).2 with e | lines <;>
      simp [hpr, hnone]
  · intro nxt hsome fuel lines hpr
    simp only [feedLoop, hq]
    simp [hpr, hsome]

theorem pagination_follows_next_link_witness :
    feedLoop envEmptyCfg "validated" 5 validatedIndexHref
      = (⟨HttpRequestType.GET, envEmptyCfg.apiUrl ++ validatedIndexHref⟩
           :: (processPage envEmptyCfg "validated" pageOne.data).1,
         (processPage envEmptyCfg "validated" pageOne.data).2) :=
  (pagination_follows_next_link envEmptyCfg "validated" validatedIndexHref
    ⟨true, 200, Except.ok (ApiDoc.page pageOne)⟩ pageOne
    (by decide) rfl rfl).1 rfl 4

/-- C8: an emitted line is exactly
`{feed}: {namespace}.{name} has new version {version} released on {date}`
where the version is the item's `highest_version.version` (its
VersionInfo, whose fetched body supplies only `updated_at`) and the date
is the item's own `updated_at` parsed and rendered with the configured
`output_date_format`, defaulting to `%Y-%m-%d`. -/
theorem report_line_format (env : ScanEnv) (collection_repo : String) (collection : ItemJson)
    (resp : HttpResponse ApiDoc) (v : VersionJson) (last_update item_update : PyDateTime)
    (c : Cfg)
    (hc : collectionFilterSkips env.cfg collection.name
        (collection.«namespace» ++ "." ++ collection.name) = false)
    (hn : namespaceFilterSkips env.cfg collection.«namespace» = false)
    (hh : ¬ collection.highest_version.href = "")
    (htr : env.transport HttpRequestType.GET (env.apiUrl ++ collection.highest_version.href) none
        = TransportResult.success resp)
    (hbody : resp.body = Except.ok (ApiDoc.version v))
    (hparse : parseTimestamp v.updated_at = some last_update)
    (hwin : env.now - env.timedelta * usecPerDay < last_update.toMicros)
    (hitem : parseTimestamp collection.updated_at = some item_update)
    (hcfg : env.cfg = some c) :
    processItem env collection_repo collection
      = ([⟨HttpRequestType.GET, env.apiUrl ++ collection.highest_version.href⟩],
         Except.ok (some (collection_repo ++ ": " ++ collection.«namespace» ++ "."
           ++ collection.name ++ " has new version " ++ collection.highest_version.version
           ++ " released on "
           ++ item_update.strftime (c.output_date_format.getD "%Y-%m-%d")))) := by
  have hpi : processItem env collection_repo collection
      = ([⟨HttpRequestType.GET, env.apiUrl ++ collection.highest_version.href⟩],
         processItemBody env collection_repo collection (Except.ok (ApiDoc.version v))) := by
    simp only [processItem, hc, hn, Bool.false_eq_true, if_false]
    rw [queryApi_valid env.apiUrl env.transport HttpRequestType.GET
      collection.highest_version.href none hh, htr]
    simp only [rewrapResult, hbody]
  rw [hpi]
  simp only [processItemBody, hparse, hitem, hcfg]
  rw [if_neg (not_le.mpr hwin)]

theorem report_line_format_witness :
    processItem envEmptyCfg "validated" itemFoo
      = ([⟨HttpRequestType.GET, baseUrl ++ "/v"⟩],
         Except.ok (some "validated: redhat.foo has new version 1.2.0 released on 2024-01-01")) := by
  rw [report_line_format envEmptyCfg "validated" itemFoo
    ⟨true, 200, Except.ok (ApiDoc.version ⟨"2024-01-10T00:00:00.000000Z"⟩)⟩
    ⟨"2024-01-10T00:00:00.000000Z"⟩ ⟨2024, 1, 10, 0, 0, 0, 0⟩ ⟨2024, 1, 1, 0, 0, 0, 0⟩
    emptyCfg (by decide) (by decide) (by decide) rfl rfl (by decide) (by decide) (by decide)
    rfl]
  rfl

/-- C2 (bug evidence): with no configuration file at all (`cfg` is
`None`) the repository, collection and namespace filters all pass and the
item does receive its VersionInfo lookup — both network calls appear in
the trace — but the run then aborts with `AttributeError` at
`cfg.get('output_date_format', '%Y-%m-%d')` (line 241) for the in-window
item, instead of emitting the default-formatted report line the claim
describes. -/
theorem no_config_scan_hits_attribute_error :
    scan envNoCfg 3
      = ([⟨HttpRequestType.GET, baseUrl ++ validatedIndexHref⟩,
          ⟨HttpRequestType.GET, baseUrl ++ "/v"⟩],
         Except.error (ScanError.attributeError
           "\x27NoneType\x27 object has no attribute \x27get\x27")) := by
  rfl

/-- C9: the scan in this embedding is a pure function of its inputs — the
backing dataset (transport), the configuration and the fixed clock value
— so two runs over an unchanged dataset with the same `now` return the
same call trace and the identical ordered sequence of report lines. -/
theorem scan_idempotent (env : ScanEnv) (fuel : Nat)
    (r1 r2 : List ApiCall × Except ScanError (List String))
    (h1 : scan env fuel = r1) (h2 : scan env fuel = r2) : r1 = r2 :=
  h1.symm.trans h2

theorem scan_idempotent_witness :
    (([], Except.ok []) : List ApiCall × Except ScanError (List String)) = ([], Except.ok []) :=
  scan_idempotent envSkipAll 1 ([], Except.ok []) ([], Except.ok []) rfl rfl
